import Mathlib

/-!
Verification development for the halloween-radio-to-spotify monitor.

The JavaScript sources are shallowly embedded below:
* string helpers model the JavaScript string operations used by the code
  (`trim`, `includes`, `split`, `join`, `toLowerCase`,
  `replace(/[^\w\s]/g, '')`, `Math.round`);
* `parseStreamTitle` embeds `RadioMonitor.parseStreamTitle`;
* `processParsedTrack` / `handleMetadataStep` embed `RadioMonitor.handleMetadata`;
* `DB`, `updateDailyStats`, `addMatchedTrack`, `addUnmatchedTrack` embed
  `DatabaseService` over `schema.sql` (SQLite `INSERT OR REPLACE` semantics
  included; wall-clock columns such as `updated_at` are omitted, and the
  current date is passed explicitly as `today`);
* `findBestMatch`, `findBestMatchForLogging`, `logUnmatchedTrack`,
  `searchAndAddTrack` embed `SpotifyService`; the external
  `string-similarity.compareTwoStrings` dependency is kept abstract as a
  parameter `sim`, and the Spotify web API is abstracted by passing the
  search results / playlist lookup / add-outcome as explicit arguments.

Numbers are modelled by `ℚ` (JavaScript numbers are floats; the claims are
stated up to floating rounding).
-/

/-! ## JavaScript string primitives -/

/-- Whitespace characters recognised by the JavaScript `\s` class and
`String.prototype.trim` (restricted to the ASCII range; the radio metadata
handled by the program is ASCII). -/
def isJsSpace (c : Char) : Bool :=
  c == ' ' || c == '\t' || c == '\n' || c == '\r' || c == '\x0b' || c == '\x0c'

/-- JavaScript word characters, the `\w` class: `[A-Za-z0-9_]`. -/
def isWordChar (c : Char) : Bool :=
  ('a' ≤ c && c ≤ 'z') || ('A' ≤ c && c ≤ 'Z') || ('0' ≤ c && c ≤ '9') || c == '_'

/-- Strip leading and trailing JS whitespace from a character list. -/
def jsTrimL (l : List Char) : List Char :=
  ((l.dropWhile isJsSpace).reverse.dropWhile isJsSpace).reverse

/-- JavaScript `String.prototype.trim`. -/
def jsTrimS (s : String) : String :=
  (jsTrimL s.toList).asString

/-- JavaScript `String.prototype.toLowerCase` (ASCII case folding). -/
def jsToLower (s : String) : String :=
  (s.toList.map Char.toLower).asString

/-- Does the list `s` start with the list `pre`? -/
def listStartsWith : List Char → List Char → Bool
  | _, [] => true
  | [], _ :: _ => false
  | c :: cs, p :: ps => c == p && listStartsWith cs ps

/-- Substring test on character lists: does `sub` occur inside `s`? -/
def jsIncludesL : List Char → List Char → Bool
  | [], sub => sub.isEmpty
  | c :: cs, sub => listStartsWith (c :: cs) sub || jsIncludesL cs sub

/-- JavaScript `s.includes(sub)`. -/
def jsIncludes (s sub : String) : Bool :=
  jsIncludesL s.toList sub.toList

/-- Fuel-driven worker for `String.prototype.split` with a string separator:
scans left to right, splitting at each non-overlapping occurrence of `sep`.
The fuel is always at least the length of the remaining input, so the
fuel-exhausted case is never reached when called through `jsSplit`. -/
def splitFuel (sep : List Char) : ℕ → List Char → List Char → List (List Char)
  | 0, s, acc => [acc.reverse ++ s]
  | _ + 1, [], acc => [acc.reverse]
  | n + 1, c :: cs, acc =>
    if listStartsWith (c :: cs) sep then
      acc.reverse :: splitFuel sep n ((c :: cs).drop sep.length) []
    else
      splitFuel sep n cs (c :: acc)

/-- JavaScript `s.split(sep)` on character lists. The program only ever
splits on fixed non-empty separators, so the empty-separator case (which
JavaScript treats as splitting into single characters) is left as the
identity split. -/
def jsSplit (s sep : List Char) : List (List Char) :=
  if sep.isEmpty then [s] else splitFuel sep s.length s []

/-- JavaScript `s.split(sep)` on strings. -/
def jsSplitS (s sep : String) : List String :=
  (jsSplit s.toList sep.toList).map List.asString

/-- JavaScript `parts.join(sep)`. -/
def joinSep (sep : String) : List String → String
  | [] => ""
  | [x] => x
  | x :: xs => x ++ sep ++ joinSep sep xs

/-- JavaScript `Math.round`, as a map on rationals. -/
def jsRound (q : ℚ) : ℚ :=
  ((q + 1/2).floor : ℚ)

/-! ## `RadioMonitor.parseStreamTitle` -/

/-- Result record of `parseStreamTitle`. -/
structure ParsedTrack where
  artist : String
  title : String
  original : String
deriving DecidableEq, Repr

/-- The ordered separator list of `parseStreamTitle`. -/
def separators : List String :=
  [" - ", " – ", " — ", ": ", " by "]

/-- The separator loop of `parseStreamTitle`: the first separator contained
in the (already trimmed) title wins; ` by ` swaps the two sides; any other
separator takes the left part as artist and rejoins the remainder on the
same separator as title. -/
def tryParse (cleanTitle : String) : List String → Option ParsedTrack
  | [] => none
  | sep :: rest =>
    if jsIncludes cleanTitle sep then
      let parts := jsSplitS cleanTitle sep
      if 2 ≤ parts.length then
        if sep = " by " then
          some { title := jsTrimS (parts.getD 0 ""),
                 artist := jsTrimS (parts.getD 1 ""),
                 original := cleanTitle }
        else
          some { artist := jsTrimS (parts.getD 0 ""),
                 title := jsTrimS (joinSep sep parts.tail),
                 original := cleanTitle }
      else tryParse cleanTitle rest
    else tryParse cleanTitle rest

/-- `RadioMonitor.parseStreamTitle`. -/
def parseStreamTitle (streamTitle : String) : ParsedTrack :=
  let cleanTitle := jsTrimS streamTitle
  match tryParse cleanTitle separators with
  | some t => t
  | none => { artist := "Unknown Artist", title := cleanTitle, original := cleanTitle }








/-! ## `SpotifyService` matcher -/

/-- A catalog item returned by the external search capability
(`track.id`, `track.name`, `track.artists[*].name`, `track.external_urls.spotify`). -/
structure Track where
  id : String
  name : String
  artistNames : List String
  url : String
deriving DecidableEq, Repr

/-- The `{track, similarity}` record built by the matching loops. -/
structure ScoredMatch where
  track : Track
  similarity : ℚ
deriving DecidableEq, Repr

/-- The cleaning applied to every side of a comparison:
`s.toLowerCase().replace(/[^\w\s]/g, '').trim()`. -/
def normalizeField (s : String) : String :=
  jsTrimS ((s.toList.map Char.toLower).filter (fun c => isWordChar c || isJsSpace c)).asString

/-- The per-candidate combined score of `findBestMatch` /
`findBestMatchForLogging`.  `sim` stands for the external
`stringSimilarity.compareTwoStrings`; `cleanArtist` and `cleanTitle` are the
already-normalized announced fields. -/
def combinedScore (sim : String → String → ℚ) (cleanArtist cleanTitle : String)
    (track : Track) : ℚ :=
  let trackArtist := normalizeField (joinSep " " track.artistNames)
  let trackTitle := normalizeField track.name
  let artistSimilarity := sim cleanArtist trackArtist
  let titleSimilarity := sim cleanTitle trackTitle
  let artistContains : ℚ :=
    if jsIncludes trackArtist cleanArtist || jsIncludes cleanArtist trackArtist then 4/5 else 0
  let titleContains : ℚ :=
    if jsIncludes trackTitle cleanTitle || jsIncludes cleanTitle trackTitle then 4/5 else 0
  let finalArtistSimilarity := max artistSimilarity artistContains
  let finalTitleSimilarity := max titleSimilarity titleContains
  finalArtistSimilarity * (2/5) + finalTitleSimilarity * (3/5)

/-- Transcription of the scoring rule as the specification words it: per field
the max of the bigram similarity and a 0.8 containment bonus granted iff
either normalized string is a substring of the other, combined as
`0.4*artist + 0.6*title`. -/
def specCombinedScore (sim : String → String → ℚ) (announcedArtist announcedTitle : String)
    (track : Track) : ℚ :=
  let a := normalizeField announcedArtist
  let t := normalizeField announcedTitle
  let ca := normalizeField (joinSep " " track.artistNames)
  let ct := normalizeField track.name
  let artistBonus : ℚ := if jsIncludes ca a || jsIncludes a ca then 4/5 else 0
  let titleBonus : ℚ := if jsIncludes ct t || jsIncludes t ct then 4/5 else 0
  2/5 * max (sim a ca) artistBonus + 3/5 * max (sim t ct) titleBonus

/-- The candidate loop of `findBestMatch`: a candidate replaces the current
best only when its combined score is strictly greater than the best so far
and at least the 0.75 threshold. -/
def findBestMatchLoop (sim : String → String → ℚ) (cleanArtist cleanTitle : String) :
    List Track → Option ScoredMatch → ℚ → Option ScoredMatch
  | [], best, _ => best
  | track :: rest, best, bestSimilarity =>
    let c := combinedScore sim cleanArtist cleanTitle track
    if bestSimilarity < c ∧ 3/4 ≤ c then
      findBestMatchLoop sim cleanArtist cleanTitle rest (some ⟨track, c⟩) c
    else
      findBestMatchLoop sim cleanArtist cleanTitle rest best bestSimilarity

/-- `SpotifyService.findBestMatch`. -/
def findBestMatch (sim : String → String → ℚ) (artist title : String)
    (tracks : List Track) : Option ScoredMatch :=
  findBestMatchLoop sim (normalizeField artist) (normalizeField title) tracks none 0

/-- The candidate loop of `findBestMatchForLogging`: same scoring, no
threshold constraint. -/
def findBestMatchForLoggingLoop (sim : String → String → ℚ) (cleanArtist cleanTitle : String) :
    List Track → Option ScoredMatch → ℚ → Option ScoredMatch
  | [], best, _ => best
  | track :: rest, best, bestSimilarity =>
    let c := combinedScore sim cleanArtist cleanTitle track
    if bestSimilarity < c then
      findBestMatchForLoggingLoop sim cleanArtist cleanTitle rest (some ⟨track, c⟩) c
    else
      findBestMatchForLoggingLoop sim cleanArtist cleanTitle rest best bestSimilarity

/-- `SpotifyService.findBestMatchForLogging`. -/
def findBestMatchForLogging (sim : String → String → ℚ) (artist title : String)
    (tracks : List Track) : Option ScoredMatch :=
  findBestMatchForLoggingLoop sim (normalizeField artist) (normalizeField title) tracks none 0

/-! ## `DatabaseService` over `schema.sql` -/

/-- A row of `matched_tracks` (wall-clock columns omitted). -/
structure MatchedRow where
  station : String
  radioArtist : String
  radioTitle : String
  radioOriginal : String
  spotifyId : String
  spotifyArtist : String
  spotifyTitle : String
  spotifyUrl : String
  matchPercentage : ℚ
  playlistName : String
deriving DecidableEq, Repr

/-- A row of `unmatched_tracks` (wall-clock and retry columns omitted;
retries are driven by out-of-scope tooling). -/
structure UnmatchedRow where
  station : String
  radioArtist : String
  radioTitle : String
  radioOriginal : String
  bestSpotifyArtist : Option String
  bestSpotifyTitle : Option String
  bestSpotifyId : Option String
  bestMatchPercentage : ℚ
  reason : String
  searchResultsCount : ℕ
deriving DecidableEq, Repr

/-- A row of `stats`.  The schema declares both `date TEXT NOT NULL UNIQUE`
(a uniqueness constraint on the date column alone) and `UNIQUE(date, station)`. -/
structure StatsRow where
  date : String
  station : String
  tracksProcessed : ℕ
  tracksMatched : ℕ
  tracksAdded : ℕ
  tracksDuplicated : ℕ
  tracksUnmatched : ℕ
  avgMatchPercentage : ℚ
deriving DecidableEq, Repr

/-- The persistent store: the three relations the pipeline writes
(the `playlists` relation is only touched by out-of-scope setup code).
Row order models insertion (rowid) order. -/
structure DB where
  matchedTracks : List MatchedRow
  unmatchedTracks : List UnmatchedRow
  stats : List StatsRow
deriving DecidableEq, Repr

/-- The empty database produced by `initializeSchema` on first run. -/
def emptyDB : DB := ⟨[], [], []⟩

/-- The outcome type passed to `updateDailyStats`. -/
inductive StatType where
  | matched
  | duplicate
  | unmatched
deriving DecidableEq, Repr

/-- The all-zero stats row created on first touch of `(date, station)`. -/
def zeroStatsRow (today station : String) : StatsRow :=
  ⟨today, station, 0, 0, 0, 0, 0, 0⟩

/-- `DatabaseService.updateDailyStats`.  First an
`INSERT OR REPLACE INTO stats` whose values are `COALESCE` sub-selects on
`(date, station)`: under SQLite semantics the REPLACE deletes every
pre-existing row that conflicts with the new row on any uniqueness
constraint — here both `UNIQUE(date, station)` and the stray `UNIQUE` on
`date` alone, so every row of the same date is removed — and appends the new
row.  Then counters are updated per outcome; on a matched outcome with a
truthy percentage the running average is recomputed via
`(old_avg*(n-1) + x) / n`; the final `UPDATE` writes each field through a
JavaScript `||`-fallback, so a computed value of `0` falls back to the
previous stored value. -/
def updateDailyStats (db : DB) (today station : String) (ty : StatType)
    (matchPercentage : Option ℚ) : DB :=
  let prev := db.stats.find? (fun r => r.date == today && r.station == station)
  let base : StatsRow := prev.getD (zeroStatsRow today station)
  let kept := db.stats.filter (fun r => !(r.date == today))
  let newMatched := if ty = .matched then base.tracksMatched + 1 else base.tracksMatched
  let newAdded := if ty = .matched then base.tracksAdded + 1 else base.tracksAdded
  let newDuplicated := if ty = .duplicate then base.tracksDuplicated + 1 else base.tracksDuplicated
  let newUnmatched := if ty = .unmatched then base.tracksUnmatched + 1 else base.tracksUnmatched
  let avgCandidate : Option ℚ :=
    if ty = .matched then
      match matchPercentage with
      | some x =>
        if x ≠ 0 then
          some ((base.avgMatchPercentage * (base.tracksMatched : ℚ) + x)
                  / ((base.tracksMatched : ℚ) + 1))
        else none
      | none => none
    else none
  let newAvg : ℚ :=
    match avgCandidate with
    | some v => if v = 0 then base.avgMatchPercentage else v
    | none => base.avgMatchPercentage
  { db with
      stats := kept ++ [⟨today, station, base.tracksProcessed + 1, newMatched, newAdded,
                         newDuplicated, newUnmatched, newAvg⟩] }

/-- The `matchDetails` record assembled by `searchAndAddTrack` and passed to
`DatabaseService.addMatchedTrack`. -/
structure MatchDetails where
  station : String
  metaArtist : String
  metaTitle : String
  metaOriginal : String
  spotifyArtist : String
  spotifyTitle : String
  spotifyId : String
  spotifyUrl : String
  percentage : ℚ
  playlist : String
deriving DecidableEq, Repr

/-- `DatabaseService.isTrackAlreadyAdded` (storage errors, which fail open,
are not modelled). -/
def isTrackAlreadyAdded (db : DB) (spotifyId : String) : Bool :=
  db.matchedTracks.any (fun r => r.spotifyId == spotifyId)

/-- `DatabaseService.addMatchedTrack`: the INSERT raises
`SQLITE_CONSTRAINT_UNIQUE` exactly when the `spotify_id` already exists; the
handler records a duplicate daily-stat outcome and returns `null`; otherwise
the row is appended, a matched outcome is recorded and the new rowid is
returned. -/
def addMatchedTrack (db : DB) (today : String) (td : MatchDetails) : Option ℕ × DB :=
  if db.matchedTracks.any (fun r => r.spotifyId == td.spotifyId) then
    (none, updateDailyStats db today td.station .duplicate none)
  else
    let row : MatchedRow :=
      { station := td.station, radioArtist := td.metaArtist, radioTitle := td.metaTitle,
        radioOriginal := td.metaOriginal, spotifyId := td.spotifyId,
        spotifyArtist := td.spotifyArtist, spotifyTitle := td.spotifyTitle,
        spotifyUrl := td.spotifyUrl, matchPercentage := td.percentage,
        playlistName := if td.playlist == "" then "Halloween Radio - " ++ td.station
                        else td.playlist }
    let db1 := { db with matchedTracks := db.matchedTracks ++ [row] }
    (some (db.matchedTracks.length + 1), updateDailyStats db1 today td.station .matched (some td.percentage))

/-- The `bestSpotifyMatch` object assembled by `logUnmatchedTrack`. -/
structure BestMatchInfo where
  artist : String
  title : String
  id : String
deriving DecidableEq, Repr

/-- The `unmatchDetails` record passed to `DatabaseService.addUnmatchedTrack`. -/
structure UnmatchDetails where
  station : String
  metaArtist : String
  metaTitle : String
  metaOriginal : String
  spotifyMatch : Option BestMatchInfo
  percentage : ℚ
  reason : String
  searchResultsCount : ℕ
deriving DecidableEq, Repr

/-- `DatabaseService.addUnmatchedTrack`: plain insert (no uniqueness
constraint on `unmatched_tracks`), then an unmatched daily-stat outcome.
`trackData.percentage || 0` is the identity on numbers and is modelled as
such. -/
def addUnmatchedTrack (db : DB) (today : String) (ud : UnmatchDetails) : ℕ × DB :=
  let row : UnmatchedRow :=
    { station := ud.station, radioArtist := ud.metaArtist, radioTitle := ud.metaTitle,
      radioOriginal := ud.metaOriginal,
      bestSpotifyArtist := ud.spotifyMatch.map (fun m => m.artist),
      bestSpotifyTitle := ud.spotifyMatch.map (fun m => m.title),
      bestSpotifyId := ud.spotifyMatch.map (fun m => m.id),
      bestMatchPercentage := ud.percentage,
      reason := ud.reason, searchResultsCount := ud.searchResultsCount }
  let db1 := { db with unmatchedTracks := db.unmatchedTracks ++ [row] }
  (db.unmatchedTracks.length + 1, updateDailyStats db1 today ud.station .unmatched none)

/-! ## `SpotifyService.logUnmatchedTrack` and `searchAndAddTrack` -/

/-- The fixed keyword list of `logUnmatchedTrack`. -/
def skipKeywords : List String :=
  ["azuracast", "halloweenradio", "commercials", "jingle",
   "station id", "radio id", "live!", "streaming"]

/-- The skip test of `logUnmatchedTrack`: some keyword occurs in the
lower-cased artist or title. -/
def shouldSkip (artist title : String) : Bool :=
  skipKeywords.any (fun pat =>
    jsIncludes (jsToLower artist) pat || jsIncludes (jsToLower title) pat)

/-- `SpotifyService.logUnmatchedTrack`.  If the skip test fires the function
returns before touching the database; otherwise the best diagnostic
candidate comes from the provided `bestMatchForLogging`, or failing that
from `findBestMatchForLogging` over the provided search results, and the
entry is stored via `addUnmatchedTrack`. -/
def logUnmatchedTrack (sim : String → String → ℚ) (db : DB) (today station : String)
    (metadata : ParsedTrack) (reason : String) (searchResults : List Track)
    (bestMatchForLogging : Option ScoredMatch) : DB :=
  if shouldSkip metadata.artist metadata.title then db
  else
    let best : Option ScoredMatch :=
      match bestMatchForLogging with
      | some bm => some bm
      | none =>
        if 0 < searchResults.length then
          findBestMatchForLogging sim metadata.artist metadata.title searchResults
        else none
    let bestMatchPercentage : ℚ :=
      match best with
      | some bm => jsRound (bm.similarity * 100)
      | none => 0
    let bestSpotifyMatch : Option BestMatchInfo :=
      best.map (fun bm => ⟨bm.track.artistNames.getD 0 "", bm.track.name, bm.track.id⟩)
    let ud : UnmatchDetails :=
      { station := station, metaArtist := metadata.artist, metaTitle := metadata.title,
        metaOriginal := if metadata.original == "" then metadata.artist ++ " - " ++ metadata.title
                        else metadata.original,
        spotifyMatch := bestSpotifyMatch, percentage := bestMatchPercentage,
        reason := reason, searchResultsCount := searchResults.length }
    (addUnmatchedTrack db today ud).2

/-- The decision core of `SpotifyService.searchAndAddTrack`, from the point
where the ordered search strategies have produced `tracks` (the first
non-empty result list, or `[]` if every strategy came back empty).
`playlist` is the in-memory `playlists` lookup for the station and
`spotifyAddOk` the outcome of the external `addTracksToPlaylist` call; the
reason string of a failed append, which embeds the API error message, is
modelled by its constant prefix. -/
def searchAndAddTrack (sim : String → String → ℚ) (db : DB) (today station artist title : String)
    (metadata : ParsedTrack) (tracks : List Track) (playlist : Option String)
    (spotifyAddOk : Bool) : Bool × DB :=
  if tracks.length = 0 then
    (false, logUnmatchedTrack sim db today station metadata "No search results" [] none)
  else
    match findBestMatch sim artist title tracks with
    | none =>
      let bestMatchForLogging := findBestMatchForLogging sim artist title tracks
      (false, logUnmatchedTrack sim db today station metadata "No suitable match found"
                (tracks.take 3) bestMatchForLogging)
    | some bestMatch =>
      if isTrackAlreadyAdded db bestMatch.track.id then
        (false, updateDailyStats db today station .duplicate none)
      else
        match playlist with
        | none => (false, db)
        | some playlistName =>
          if spotifyAddOk then
            let matchDetails : MatchDetails :=
              { station := station, metaArtist := artist, metaTitle := title,
                metaOriginal := if metadata.original == "" then artist ++ " - " ++ title
                                else metadata.original,
                spotifyArtist := bestMatch.track.artistNames.getD 0 "",
                spotifyTitle := bestMatch.track.name,
                spotifyId := bestMatch.track.id,
                spotifyUrl := bestMatch.track.url,
                percentage := jsRound (bestMatch.similarity * 100),
                playlist := playlistName }
            (true, (addMatchedTrack db today matchDetails).2)
          else
            (false, logUnmatchedTrack sim db today station metadata "Spotify API error" []
                      (some bestMatch))

/-! ## `RadioMonitor.handleMetadata` -/

/-- The validation-and-change-detection core of `handleMetadata`, acting on
an already parsed track: a track with a falsy (empty) artist or title is
dropped; a track byte-identical to the stored last-seen track is dropped;
otherwise the stored value is replaced and the pipeline is invoked (the
returned flag). -/
def processParsedTrack (last : Option ParsedTrack) (currentTrack : ParsedTrack) :
    Option ParsedTrack × Bool :=
  if currentTrack.artist == "" || currentTrack.title == "" then
    (last, false)
  else
    match last with
    | some lastTrack =>
      if lastTrack.artist == currentTrack.artist && lastTrack.title == currentTrack.title then
        (last, false)
      else
        (some currentTrack, true)
    | none => (some currentTrack, true)

/-- `RadioMonitor.handleMetadata` for one feed, from the `StreamTitle` value
of a metadata frame to the updated last-seen cache plus the
did-invoke-the-pipeline flag (a frame with no `StreamTitle` is modelled by
the empty string, which `!parsed.StreamTitle` also rejects). -/
def handleMetadataStep (last : Option ParsedTrack) (streamTitle : String) :
    Option ParsedTrack × Bool :=
  if streamTitle == "" then (last, false)
  else processParsedTrack last (parseStreamTitle streamTitle)

/-- `handleMetadata` together with the database effects of the pipeline it
invokes: when the step fires, `searchAndAddTrack` runs on the parsed fields. -/
def handleMetadataDB (sim : String → String → ℚ) (db : DB) (last : Option ParsedTrack)
    (streamTitle today station : String) (tracks : List Track) (playlist : Option String)
    (spotifyAddOk : Bool) : DB × Option ParsedTrack :=
  let step := handleMetadataStep last streamTitle
  if step.2 then
    let ct := parseStreamTitle streamTitle
    ((searchAndAddTrack sim db today station ct.artist ct.title ct tracks playlist
        spotifyAddOk).2, step.1)
  else (db, step.1)

/-- Feed a list of parsed announcements through `processParsedTrack`,
counting pipeline invocations. -/
def runFeed (last : Option ParsedTrack) : List ParsedTrack → Option ParsedTrack × ℕ
  | [] => (last, 0)
  | t :: ts =>
    let step := processParsedTrack last t
    let rest := runFeed step.1 ts
    (rest.1, (if step.2 then 1 else 0) + rest.2)

/-! ## Read helpers -/

/-- The stats row for `(today, station)`, defaulting to the all-zero row
(`SELECT * FROM stats WHERE date = ? AND station = ?`). -/
def getStats (db : DB) (today station : String) : StatsRow :=
  (db.stats.find? (fun r => r.date == today && r.station == station)).getD
    (zeroStatsRow today station)

/-- Number of matched rows carrying a given catalog (Spotify) id. -/
def countId (db : DB) (spotifyId : String) : ℕ :=
  (db.matchedTracks.filter (fun r => r.spotifyId == spotifyId)).length

/-- The change-detection test of `handleMetadata`: the stored last-seen
track exists and agrees with the incoming one on both artist and title. -/
def isSameTrack (last : Option ParsedTrack) (cur : ParsedTrack) : Bool :=
  match last with
  | some lastTrack => lastTrack.artist == cur.artist && lastTrack.title == cur.title
  | none => false

/-! ## Stat event sequences -/

/-- One daily-stat outcome as recorded by the pipeline: a matched outcome
carries its match percentage, duplicate and unmatched outcomes carry none. -/
inductive StatEvent where
  | matched (p : ℚ)
  | duplicate
  | unmatched
deriving DecidableEq, Repr

/-- Record one outcome through `updateDailyStats`, exactly as the pipeline
calls it. -/
def applyStatEvent (today station : String) (db : DB) (e : StatEvent) : DB :=
  match e with
  | .matched p => updateDailyStats db today station .matched (some p)
  | .duplicate => updateDailyStats db today station .duplicate none
  | .unmatched => updateDailyStats db today station .unmatched none

/-- The match percentages of the matched outcomes of a sequence, in order. -/
def matchedPercentages : List StatEvent → List ℚ
  | [] => []
  | .matched p :: es => p :: matchedPercentages es
  | .duplicate :: es => matchedPercentages es
  | .unmatched :: es => matchedPercentages es

/-- Is the event a duplicate outcome? -/
def isDuplicateEvent : StatEvent → Bool
  | .duplicate => true
  | _ => false

/-- Is the event an unmatched outcome? -/
def isUnmatchedEvent : StatEvent → Bool
  | .unmatched => true
  | _ => false

/-! ## Helper lemmas: splitting and the separator loop -/

theorem splitFuel_length_pos (sep : List Char) :
    ∀ (n : ℕ) (s acc : List Char), 1 ≤ (splitFuel sep n s acc).length := by
  intro n
  induction n with
  | zero => intro s acc; simp [splitFuel]
  | succ n ih =>
    intro s acc
    cases s with
    | nil => simp [splitFuel]
    | cons c cs =>
      simp only [splitFuel]
      split
      · simp
      · exact ih cs (c :: acc)

theorem jsIncludesL_splitFuel_two_le (sep : List Char) (hsep : sep ≠ []) :
    ∀ (n : ℕ) (s acc : List Char), s.length ≤ n → jsIncludesL s sep = true →
      2 ≤ (splitFuel sep n s acc).length := by
  intro n
  induction n with
  | zero =>
    intro s acc hlen hinc
    have hs : s = [] := List.eq_nil_of_length_eq_zero (Nat.le_zero.mp hlen)
    subst hs
    simp [jsIncludesL, List.isEmpty_iff] at hinc
    exact absurd hinc hsep
  | succ n ih =>
    intro s acc hlen hinc
    cases s with
    | nil =>
      simp [jsIncludesL, List.isEmpty_iff] at hinc
      exact absurd hinc hsep
    | cons c cs =>
      simp only [splitFuel]
      by_cases hstart : listStartsWith (c :: cs) sep = true
      · rw [if_pos hstart]
        have := splitFuel_length_pos sep n ((c :: cs).drop sep.length) []
        simp only [List.length_cons]
        omega
      · rw [if_neg hstart]
        have hinc' : jsIncludesL cs sep = true := by
          simp only [jsIncludesL, Bool.or_eq_true] at hinc
          rcases hinc with h | h
          · exact absurd h hstart
          · exact h
        exact ih cs (c :: acc) (by simp only [List.length_cons] at hlen ⊢; omega) hinc'

theorem toList_ne_nil_of_ne_empty (s : String) (h : s ≠ "") : s.toList ≠ [] := by
  intro hnil
  apply h
  cases s with
  | mk data =>
    simp [String.toList] at hnil
    simp [hnil]

theorem jsIncludes_two_le (s sep : String) (hsep : sep ≠ "") (h : jsIncludes s sep = true) :
    2 ≤ (jsSplitS s sep).length := by
  have hlist : sep.toList ≠ [] := toList_ne_nil_of_ne_empty sep hsep
  unfold jsSplitS jsSplit
  rw [if_neg (by simpa [List.isEmpty_iff] using hlist)]
  rw [List.length_map]
  exact jsIncludesL_splitFuel_two_le sep.toList hlist s.toList.length s.toList [] le_rfl h

theorem tryParse_eq_of_find (c : String) :
    ∀ (seps : List String), (∀ t ∈ seps, t ≠ "") →
      ∀ sep, seps.find? (fun t => jsIncludes c t) = some sep →
        tryParse c seps =
          (let parts := jsSplitS c sep
           if sep = " by " then
             some { title := jsTrimS (parts.getD 0 ""), artist := jsTrimS (parts.getD 1 ""),
                    original := c }
           else
             some { artist := jsTrimS (parts.getD 0 ""),
                    title := jsTrimS (joinSep sep parts.tail), original := c }) := by
  intro seps
  induction seps with
  | nil => intro _ sep h; simp [List.find?] at h
  | cons t rest ih =>
    intro hne sep hfind
    by_cases hinc : jsIncludes c t = true
    · rw [List.find?_cons_of_pos _ hinc] at hfind
      have hsep : sep = t := (Option.some.inj hfind).symm
      subst hsep
      have h2 : 2 ≤ (jsSplitS c sep).length :=
        jsIncludes_two_le c sep (hne sep (List.mem_cons_self sep rest)) hinc
      simp only [tryParse, hinc, if_pos, if_true, h2]
    · rw [List.find?_cons_of_neg _ (by simp [hinc])] at hfind
      have := ih (fun x hx => hne x (List.mem_cons_of_mem t hx)) sep hfind
      simp only [tryParse, hinc]
      simpa using this

theorem tryParse_original (c : String) :
    ∀ (seps : List String) (t : ParsedTrack), tryParse c seps = some t → t.original = c := by
  intro seps
  induction seps with
  | nil => intro t h; simp [tryParse] at h
  | cons sep rest ih =>
    intro t h
    simp only [tryParse] at h
    split at h
    · split at h
      · split at h
        · have := Option.some.inj h
          rw [← this]
        · have := Option.some.inj h
          rw [← this]
      · exact ih t h
    · exact ih t h

/-! ## Claim C4: separator precedence in the parser -/

/-- C4: the parser tries the separators in the fixed order
` - `, ` – `, ` — `, `: `, ` by `, and the first separator present in the
(trimmed) string decides the parse: for all separators except ` by ` the
left part is artist and the remainder rejoined on the same separator is
title; for ` by ` the left part is title and the right part is artist; in
particular "A by B" parses to {title A, artist B} and "A - B by C" parses
to {artist A, title "B by C"}. -/
theorem C4_separator_precedence :
    (parseStreamTitle "A by B" = { artist := "B", title := "A", original := "A by B" } ∧
     parseStreamTitle "A - B by C" =
       { artist := "A", title := "B by C", original := "A - B by C" }) ∧
    ∀ (s sep : String),
      separators.find? (fun t => jsIncludes (jsTrimS s) t) = some sep →
      parseStreamTitle s =
        (let parts := jsSplitS (jsTrimS s) sep
         if sep = " by " then
           { artist := jsTrimS (parts.getD 1 ""), title := jsTrimS (parts.getD 0 ""),
             original := jsTrimS s }
         else
           { artist := jsTrimS (parts.getD 0 ""), title := jsTrimS (joinSep sep parts.tail),
             original := jsTrimS s }) := by
  refine ⟨⟨by decide, by decide⟩, ?_⟩
  intro s sep hfind
  have hne : ∀ t ∈ separators, t ≠ "" := by decide
  have h := tryParse_eq_of_find (jsTrimS s) separators hne sep hfind
  simp only [parseStreamTitle]
  rw [h]
  by_cases hby : sep = " by "
  · simp [hby]
  · simp [hby]

/-- Witness for C4 at the concrete announcement "Artist: Title". -/
theorem C4_witness :
    separators.find? (fun t => jsIncludes (jsTrimS "Artist: Title") t) = some ": " ∧
    parseStreamTitle "Artist: Title" =
      { artist := "Artist", title := "Title", original := "Artist: Title" } := by
  constructor
  · decide
  · have h := C4_separator_precedence.2 "Artist: Title" ": " (by decide)
    rw [h]; decide

/-! ## Claim C6: the `original` field -/

/-- C6 counterexample: the parser trims its input before storing `original`,
so for the announcement " X " the `original` field is not the announcement
text verbatim, and the no-separator result is not built from the full
untrimmed text either. -/
theorem C6_counterexample :
    (parseStreamTitle " X ").original ≠ " X " ∧
    parseStreamTitle " X " ≠
      { artist := "Unknown Artist", title := " X ", original := " X " } := by
  decide

/-- C6 amended: `original` always equals the whitespace-trimmed announcement
text — apart from that trimming it is preserved verbatim, including when no
separator matches — and in the no-separator case the result is exactly
{artist "Unknown Artist", title trimmed text, original trimmed text}. -/
theorem C6_original_trimmed (s : String) :
    (parseStreamTitle s).original = jsTrimS s ∧
    (tryParse (jsTrimS s) separators = none →
      parseStreamTitle s =
        { artist := "Unknown Artist", title := jsTrimS s, original := jsTrimS s }) := by
  constructor
  · simp only [parseStreamTitle]
    cases h : tryParse (jsTrimS s) separators with
    | none => rfl
    | some t => exact tryParse_original (jsTrimS s) separators t h
  · intro h
    simp only [parseStreamTitle]
    rw [h]

/-- Witness for C6 at the concrete announcement " X ". -/
theorem C6_witness :
    parseStreamTitle " X " =
      { artist := "Unknown Artist", title := "X", original := "X" } := by
  have h := (C6_original_trimmed " X ").2 (by decide)
  rw [h]; decide

/-! ## Claim C10: empty parsed fields are discarded before the pipeline -/

/-- C10: a metadata frame whose StreamTitle parses to an empty artist or an
empty title is silently discarded before the pipeline: the database is left
untouched (no matched or unmatched record, no stats update) and the
last-seen cache is not updated. -/
theorem C10_empty_parse_discarded :
    ∀ (sim : String → String → ℚ) (db : DB) (last : Option ParsedTrack)
      (streamTitle today station : String) (tracks : List Track)
      (playlist : Option String) (ok : Bool),
      (parseStreamTitle streamTitle).artist = "" ∨ (parseStreamTitle streamTitle).title = "" →
      handleMetadataDB sim db last streamTitle today station tracks playlist ok = (db, last) := by
  intro sim db last streamTitle today station tracks playlist ok h
  have hstep : handleMetadataStep last streamTitle = (last, false) := by
    unfold handleMetadataStep processParsedTrack
    split
    · rfl
    · rw [if_pos (by rcases h with h | h <;> simp [h])]
  simp [handleMetadataDB, hstep]

/-- Witness for C10 at a whitespace-only StreamTitle (empty parsed title). -/
theorem C10_witness :
    handleMetadataDB (fun _ _ => 0) emptyDB none "   " "2025-10-11" "main" [] none true =
      (emptyDB, none) :=
  C10_empty_parse_discarded (fun _ _ => 0) emptyDB none "   " "2025-10-11" "main" [] none true
    (by decide)

/-! ## Claim C5: change detection -/

/-- C5 counterexample: a parsed track with an empty artist (e.g. from the
StreamTitle ": X") is discarded even though it is not byte-identical to the
stored last-seen track, refuting the claimed "only if" direction; and two
consecutive identical announcements that already equal the stored value
produce zero pipeline invocations, not exactly one. -/
theorem C5_counterexample :
    ((processParsedTrack (some (parseStreamTitle "A - B")) (parseStreamTitle ": X")).2 = false ∧
     isSameTrack (some (parseStreamTitle "A - B")) (parseStreamTitle ": X") = false) ∧
    (runFeed (some ⟨"A", "B", "A - B"⟩)
        [(⟨"A", "B", "A - B"⟩ : ParsedTrack), ⟨"A", "B", "A - B"⟩]).2 = 0 := by
  decide

/-- C5 amended: among parsed tracks with nonempty artist and title, an
incoming track is discarded iff both fields are byte-identical to the
feed's stored last-seen track; on discard the stored value is kept, and
otherwise it is replaced by the incoming track and the pipeline runs.
Consequently two consecutive identical announcements produce at most one
pipeline invocation, and exactly one when they differ from the stored
value (tracks with an empty artist or title are discarded regardless,
see C10). -/
theorem C5_change_detection :
    ∀ (last : Option ParsedTrack) (cur : ParsedTrack),
      cur.artist ≠ "" → cur.title ≠ "" →
      (((processParsedTrack last cur).2 = false ↔ isSameTrack last cur = true) ∧
       ((processParsedTrack last cur).2 = false → (processParsedTrack last cur).1 = last) ∧
       ((processParsedTrack last cur).2 = true → (processParsedTrack last cur).1 = some cur)) ∧
      ((runFeed last [cur, cur]).2 ≤ 1 ∧
       (isSameTrack last cur = false → (runFeed last [cur, cur]).2 = 1)) := by
  intro last cur ha ht
  have hcond : (cur.artist == "" || cur.title == "") = false := by
    simp [ha, ht]
  cases last with
  | none =>
    refine ⟨⟨?_, ?_, ?_⟩, ?_, ?_⟩ <;>
      simp [processParsedTrack, hcond, isSameTrack, runFeed]
  | some lt =>
    by_cases hsame : (lt.artist == cur.artist && lt.title == cur.title) = true
    · refine ⟨⟨?_, ?_, ?_⟩, ?_, ?_⟩ <;>
        simp [processParsedTrack, hcond, isSameTrack, runFeed, hsame]
    · have hsame' : (lt.artist == cur.artist && lt.title == cur.title) = false :=
        eq_false_of_ne_true hsame
      refine ⟨⟨?_, ?_, ?_⟩, ?_, ?_⟩ <;>
        simp [processParsedTrack, hcond, isSameTrack, runFeed, hsame']

/-- Witness for C5 at a concrete stored track and a different incoming one. -/
theorem C5_witness :
    (runFeed (some ⟨"A", "B", "A - B"⟩)
        [(⟨"C", "D", "C - D"⟩ : ParsedTrack), ⟨"C", "D", "C - D"⟩]).2 = 1 :=
  ((C5_change_detection (some ⟨"A", "B", "A - B"⟩) ⟨"C", "D", "C - D"⟩ (by decide)
      (by decide)).2.2) (by decide)

/-! ## Helper lemmas: the matching loops -/

theorem findBestMatchLoop_some_ne_none (sim : String → String → ℚ) (ca ct : String) :
    ∀ (l : List Track) (m : ScoredMatch) (bs : ℚ),
      findBestMatchLoop sim ca ct l (some m) bs ≠ none := by
  intro l
  induction l with
  | nil => intro m bs; simp [findBestMatchLoop]
  | cons tr rest ih =>
    intro m bs
    simp only [findBestMatchLoop]
    split
    · exact ih _ _
    · exact ih _ _

theorem findBestMatchLoop_none_iff (sim : String → String → ℚ) (ca ct : String) :
    ∀ (l : List Track),
      (findBestMatchLoop sim ca ct l none 0 = none ↔
        ∀ tr ∈ l, combinedScore sim ca ct tr < 3/4) := by
  intro l
  induction l with
  | nil => simp [findBestMatchLoop]
  | cons tr rest ih =>
    simp only [findBestMatchLoop]
    by_cases hc : (3:ℚ)/4 ≤ combinedScore sim ca ct tr
    · rw [if_pos ⟨lt_of_lt_of_le (by norm_num) hc, hc⟩]
      constructor
      · intro h
        exact absurd h (findBestMatchLoop_some_ne_none sim ca ct rest _ _)
      · intro h
        exact absurd (h tr (List.mem_cons_self tr rest)) (not_lt.mpr hc)
    · rw [if_neg (fun hand => hc hand.2), ih]
      constructor
      · intro h tr' htr'
        rcases List.mem_cons.mp htr' with rfl | hm
        · exact not_le.mp hc
        · exact h tr' hm
      · intro h tr' htr'
        exact h tr' (List.mem_cons_of_mem tr htr')

theorem findBestMatchLoop_sim_ge (sim : String → String → ℚ) (ca ct : String) :
    ∀ (l : List Track) (acc : Option ScoredMatch) (bs : ℚ),
      (∀ m, acc = some m → 3/4 ≤ m.similarity) →
      ∀ bm, findBestMatchLoop sim ca ct l acc bs = some bm → 3/4 ≤ bm.similarity := by
  intro l
  induction l with
  | nil =>
    intro acc bs hacc bm h
    simp only [findBestMatchLoop] at h
    exact hacc bm h
  | cons tr rest ih =>
    intro acc bs hacc bm h
    simp only [findBestMatchLoop] at h
    split at h
    · rename_i hcond
      refine ih _ _ (fun m hm => ?_) bm h
      rw [← Option.some.inj hm]
      exact hcond.2
    · exact ih _ _ hacc bm h

theorem logLoop_cases (sim : String → String → ℚ) (ca ct : String) :
    ∀ (l : List Track) (best : Option ScoredMatch) (bs : ℚ),
      (findBestMatchForLoggingLoop sim ca ct l best bs = best ∧
         ∀ tr ∈ l, combinedScore sim ca ct tr ≤ bs) ∨
      (∃ i, ∃ h : i < l.length,
         findBestMatchForLoggingLoop sim ca ct l best bs =
           some ⟨l.get ⟨i, h⟩, combinedScore sim ca ct (l.get ⟨i, h⟩)⟩ ∧
         bs < combinedScore sim ca ct (l.get ⟨i, h⟩) ∧
         (∀ j, ∀ hj : j < l.length,
            combinedScore sim ca ct (l.get ⟨j, hj⟩) ≤
              combinedScore sim ca ct (l.get ⟨i, h⟩)) ∧
         (∀ j, ∀ hj : j < l.length, j < i →
            combinedScore sim ca ct (l.get ⟨j, hj⟩) <
              combinedScore sim ca ct (l.get ⟨i, h⟩))) := by
  intro l
  induction l with
  | nil =>
    intro best bs
    left
    exact ⟨by simp [findBestMatchForLoggingLoop], by simp⟩
  | cons tr rest ih =>
    intro best bs
    by_cases hc : bs < combinedScore sim ca ct tr
    · have hstep : findBestMatchForLoggingLoop sim ca ct (tr :: rest) best bs =
          findBestMatchForLoggingLoop sim ca ct rest
            (some ⟨tr, combinedScore sim ca ct tr⟩) (combinedScore sim ca ct tr) := by
        simp only [findBestMatchForLoggingLoop]
        rw [if_pos hc]
      rcases ih (some ⟨tr, combinedScore sim ca ct tr⟩) (combinedScore sim ca ct tr) with
        ⟨heq, hall⟩ | ⟨i, hi, heq, hgt, hall, hbef⟩
      · right
        refine ⟨0, by simp, ?_, by simpa using hc, ?_, ?_⟩
        · rw [hstep, heq]
          simp
        · intro j hj
          cases j with
          | zero => simp
          | succ j =>
            simp only [List.get_cons_succ, List.get_cons_zero]
            exact hall _ (List.get_mem rest _ _)
        · intro j hj hj0
          omega
      · right
        have hi' : i + 1 < (tr :: rest).length := by simpa using Nat.succ_lt_succ hi
        refine ⟨i + 1, hi', ?_, ?_, ?_, ?_⟩
        · rw [hstep, heq]
          simp
        · simpa using lt_trans hc hgt
        · intro j hj
          cases j with
          | zero =>
            simpa using le_of_lt hgt
          | succ j =>
            simpa using hall j (by simpa using hj)
        · intro j hj hlt
          cases j with
          | zero => simpa using hgt
          | succ j =>
            simpa using hbef j (by simpa using hj) (by omega)
    · have hstep : findBestMatchForLoggingLoop sim ca ct (tr :: rest) best bs =
          findBestMatchForLoggingLoop sim ca ct rest best bs := by
        simp only [findBestMatchForLoggingLoop]
        rw [if_neg hc]
      rcases ih best bs with ⟨heq, hall⟩ | ⟨i, hi, heq, hgt, hall, hbef⟩
      · left
        refine ⟨by rw [hstep, heq], ?_⟩
        intro tr' htr'
        rcases List.mem_cons.mp htr' with rfl | hm
        · exact not_lt.mp hc
        · exact hall tr' hm
      · right
        have hi' : i + 1 < (tr :: rest).length := by simpa using Nat.succ_lt_succ hi
        refine ⟨i + 1, hi', ?_, by simpa using hgt, ?_, ?_⟩
        · rw [hstep, heq]
          simp
        · intro j hj
          cases j with
          | zero =>
            simpa using le_of_lt (lt_of_le_of_lt (not_lt.mp hc) hgt)
          | succ j =>
            simpa using hall j (by simpa using hj)
        · intro j hj hlt
          cases j with
          | zero => simpa using lt_of_le_of_lt (not_lt.mp hc) hgt
          | succ j =>
            simpa using hbef j (by simpa using hj) (by omega)

theorem updateDailyStats_matchedTracks (db : DB) (today station : String) (ty : StatType)
    (mp : Option ℚ) : (updateDailyStats db today station ty mp).matchedTracks = db.matchedTracks :=
  rfl

theorem updateDailyStats_unmatchedTracks (db : DB) (today station : String) (ty : StatType)
    (mp : Option ℚ) :
    (updateDailyStats db today station ty mp).unmatchedTracks = db.unmatchedTracks :=
  rfl

/-! ## Claim C3: candidate scoring and tie-breaking -/

/-- C3: every candidate is scored per the spec formula (normalization,
per-field max of similarity and the 0.8 containment bonus granted iff either
normalized string is a substring of the other, combination as
0.4*artist + 0.6*title), and the iteration keeps a candidate only when its
combined score is strictly greater than the best so far: the returned match
carries the combined score of its track, every candidate scores at most
that, and every earlier-seen candidate scores strictly less, so among
equal-scoring candidates the earlier-seen one is kept. -/
theorem C3_scoring_and_tie_break :
    ∀ (sim : String → String → ℚ) (artist title : String) (tracks : List Track),
      (∀ tr : Track,
         combinedScore sim (normalizeField artist) (normalizeField title) tr =
           specCombinedScore sim artist title tr) ∧
      (findBestMatchForLogging sim artist title tracks = none ↔
         ∀ tr ∈ tracks,
           combinedScore sim (normalizeField artist) (normalizeField title) tr ≤ 0) ∧
      (∀ bm, findBestMatchForLogging sim artist title tracks = some bm →
         bm.similarity =
           combinedScore sim (normalizeField artist) (normalizeField title) bm.track ∧
         0 < bm.similarity ∧
         (∀ tr ∈ tracks,
            combinedScore sim (normalizeField artist) (normalizeField title) tr ≤
              bm.similarity) ∧
         (∃ i, ∃ h : i < tracks.length, tracks.get ⟨i, h⟩ = bm.track ∧
            ∀ j, ∀ hj : j < tracks.length, j < i →
              combinedScore sim (normalizeField artist) (normalizeField title)
                  (tracks.get ⟨j, hj⟩) < bm.similarity)) := by
  intro sim artist title tracks
  refine ⟨?_, ?_, ?_⟩
  · intro tr
    simp only [combinedScore, specCombinedScore]
    ring
  · unfold findBestMatchForLogging
    rcases logLoop_cases sim (normalizeField artist) (normalizeField title) tracks none 0 with
      ⟨heq, hall⟩ | ⟨i, hi, heq, hgt, hall, hbef⟩
    · rw [heq]
      exact ⟨fun _ => hall, fun _ => rfl⟩
    · rw [heq]
      constructor
      · intro h
        exact absurd h (by simp)
      · intro h
        exact absurd hgt (not_lt.mpr (h _ (List.get_mem tracks i hi)))
  · intro bm hbm
    unfold findBestMatchForLogging at hbm
    rcases logLoop_cases sim (normalizeField artist) (normalizeField title) tracks none 0 with
      ⟨heq, hall⟩ | ⟨i, hi, heq, hgt, hall, hbef⟩
    · rw [heq] at hbm
      exact absurd hbm (by simp)
    · rw [heq] at hbm
      have hbm' := Option.some.inj hbm
      refine ⟨?_, ?_, ?_, ?_⟩
      · rw [← hbm']
      · rw [← hbm']
        exact hgt
      · intro tr htr
        rw [← hbm']
        obtain ⟨⟨j, hj⟩, hget⟩ := List.mem_iff_get.mp htr
        rw [← hget]
        exact hall j hj
      · refine ⟨i, hi, ?_, ?_⟩
        · rw [← hbm']
        · intro j hj hlt
          rw [← hbm']
          exact hbef j hj hlt

/-- Witness for C3: two candidates with equal scores — the earlier one is
returned with exactly the combined score of its track. -/
theorem C3_witness :
    ((1:ℚ)/2 =
      combinedScore (fun _ _ => (1/2 : ℚ)) (normalizeField "aa") (normalizeField "bb")
        ⟨"id1", "n1", ["a1"], "u1"⟩) ∧
    findBestMatchForLogging (fun _ _ => (1/2 : ℚ)) "aa" "bb"
        [⟨"id1", "n1", ["a1"], "u1"⟩, ⟨"id2", "n2", ["a2"], "u2"⟩] =
      some ⟨⟨"id1", "n1", ["a1"], "u1"⟩, 1/2⟩ := by
  have e1 : combinedScore (fun _ _ => (1/2 : ℚ)) (normalizeField "aa") (normalizeField "bb")
      ⟨"id1", "n1", ["a1"], "u1"⟩ = 1/2 := by
    have hA : (jsIncludes (normalizeField (joinSep " " ["a1"])) (normalizeField "aa")
        || jsIncludes (normalizeField "aa") (normalizeField (joinSep " " ["a1"]))) = false := by
      decide
    have hT : (jsIncludes (normalizeField "n1") (normalizeField "bb")
        || jsIncludes (normalizeField "bb") (normalizeField "n1")) = false := by
      decide
    simp only [combinedScore, hA, hT]
    norm_num
  have e2 : combinedScore (fun _ _ => (1/2 : ℚ)) (normalizeField "aa") (normalizeField "bb")
      ⟨"id2", "n2", ["a2"], "u2"⟩ = 1/2 := by
    have hA : (jsIncludes (normalizeField (joinSep " " ["a2"])) (normalizeField "aa")
        || jsIncludes (normalizeField "aa") (normalizeField (joinSep " " ["a2"]))) = false := by
      decide
    have hT : (jsIncludes (normalizeField "n2") (normalizeField "bb")
        || jsIncludes (normalizeField "bb") (normalizeField "n2")) = false := by
      decide
    simp only [combinedScore, hA, hT]
    norm_num
  have hbm : findBestMatchForLogging (fun _ _ => (1/2 : ℚ)) "aa" "bb"
      [⟨"id1", "n1", ["a1"], "u1"⟩, ⟨"id2", "n2", ["a2"], "u2"⟩] =
        some ⟨⟨"id1", "n1", ["a1"], "u1"⟩, 1/2⟩ := by
    simp only [findBestMatchForLogging, findBestMatchForLoggingLoop, e1, e2]
    norm_num
  have h := (C3_scoring_and_tie_break (fun _ _ => (1/2 : ℚ)) "aa" "bb"
      [⟨"id1", "n1", ["a1"], "u1"⟩, ⟨"id2", "n2", ["a2"], "u2"⟩]).2.2
      ⟨⟨"id1", "n1", ["a1"], "u1"⟩, 1/2⟩ hbm
  exact ⟨h.1, hbm⟩

/-! ## Claim C2: the 0.75 acceptance threshold -/

/-- C2: a candidate list containing a combined score of exactly 0.75 yields
an accepted match (with similarity at least 0.75), while a list whose every
combined score is strictly below 0.75 yields no match; in that case
`searchAndAddTrack` records the "No suitable match found" outcome and the
best-scoring candidate computed with no threshold is passed to (and, when
the non-music filter does not fire, stored in) the unmatched-track record. -/
theorem C2_threshold_boundary :
    ∀ (sim : String → String → ℚ) (artist title : String) (tracks : List Track),
      ((∃ tr ∈ tracks,
          combinedScore sim (normalizeField artist) (normalizeField title) tr = 3/4) →
        ∃ bm, findBestMatch sim artist title tracks = some bm ∧ 3/4 ≤ bm.similarity) ∧
      ((∀ tr ∈ tracks,
          combinedScore sim (normalizeField artist) (normalizeField title) tr < 3/4) →
        findBestMatch sim artist title tracks = none ∧
        (∀ (db : DB) (today station : String) (metadata : ParsedTrack)
           (playlist : Option String) (ok : Bool), tracks ≠ [] →
           searchAndAddTrack sim db today station artist title metadata tracks playlist ok =
             (false, logUnmatchedTrack sim db today station metadata
                "No suitable match found" (tracks.take 3)
                (findBestMatchForLogging sim artist title tracks))) ∧
        (∀ (db : DB) (today station : String) (metadata : ParsedTrack)
           (playlist : Option String) (ok : Bool) (bml : ScoredMatch), tracks ≠ [] →
           shouldSkip metadata.artist metadata.title = false →
           findBestMatchForLogging sim artist title tracks = some bml →
           ∃ row : UnmatchedRow,
             (searchAndAddTrack sim db today station artist title metadata tracks playlist
                 ok).2.unmatchedTracks = db.unmatchedTracks ++ [row] ∧
             row.bestSpotifyId = some bml.track.id ∧
             row.bestMatchPercentage = jsRound (bml.similarity * 100) ∧
             row.reason = "No suitable match found")) := by
  intro sim artist title tracks
  constructor
  · rintro ⟨tr, htr, heq⟩
    cases hres : findBestMatch sim artist title tracks with
    | none =>
      exfalso
      unfold findBestMatch at hres
      have := (findBestMatchLoop_none_iff sim (normalizeField artist) (normalizeField title)
        tracks).mp hres tr htr
      rw [heq] at this
      exact lt_irrefl _ this
    | some bm =>
      refine ⟨bm, rfl, ?_⟩
      unfold findBestMatch at hres
      exact findBestMatchLoop_sim_ge sim (normalizeField artist) (normalizeField title)
        tracks none 0 (by simp) bm hres
  · intro hall
    have hnone : findBestMatch sim artist title tracks = none := by
      unfold findBestMatch
      exact (findBestMatchLoop_none_iff sim (normalizeField artist) (normalizeField title)
        tracks).mpr hall
    refine ⟨hnone, ?_, ?_⟩
    · intro db today station metadata playlist ok hne
      have hlen : ¬(tracks.length = 0) := by
        simpa [List.length_eq_zero] using hne
      simp only [searchAndAddTrack, hnone, if_neg hlen]
    · intro db today station metadata playlist ok bml hne hskip hbml
      have hlen : ¬(tracks.length = 0) := by
        simpa [List.length_eq_zero] using hne
      simp only [searchAndAddTrack, hnone, if_neg hlen, hbml]
      simp only [logUnmatchedTrack, hskip, Bool.false_eq_true, if_false]
      refine ⟨{ station := station, radioArtist := metadata.artist,
                radioTitle := metadata.title,
                radioOriginal := if metadata.original == "" then
                    metadata.artist ++ " - " ++ metadata.title
                  else metadata.original,
                bestSpotifyArtist := some (bml.track.artistNames.getD 0 ""),
                bestSpotifyTitle := some bml.track.name,
                bestSpotifyId := some bml.track.id,
                bestMatchPercentage := jsRound (bml.similarity * 100),
                reason := "No suitable match found",
                searchResultsCount := (tracks.take 3).length }, ?_, rfl, rfl, rfl⟩
      simp only [addUnmatchedTrack, updateDailyStats_unmatchedTracks, Option.map_some']

/-- Witness for C2: a single candidate scoring exactly 0.75 is accepted;
the same candidate scoring 0.5 yields no match. -/
theorem C2_witness :
    (∃ bm, findBestMatch (fun _ _ => (3/4 : ℚ)) "aa" "bb" [⟨"id1", "n1", ["a1"], "u1"⟩] =
        some bm ∧ (3:ℚ)/4 ≤ bm.similarity) ∧
    findBestMatch (fun _ _ => (1/2 : ℚ)) "aa" "bb" [⟨"id1", "n1", ["a1"], "u1"⟩] = none := by
  have hA : (jsIncludes (normalizeField (joinSep " " ["a1"])) (normalizeField "aa")
      || jsIncludes (normalizeField "aa") (normalizeField (joinSep " " ["a1"]))) = false := by
    decide
  have hT : (jsIncludes (normalizeField "n1") (normalizeField "bb")
      || jsIncludes (normalizeField "bb") (normalizeField "n1")) = false := by
    decide
  have e34 : combinedScore (fun _ _ => (3/4 : ℚ)) (normalizeField "aa") (normalizeField "bb")
      ⟨"id1", "n1", ["a1"], "u1"⟩ = 3/4 := by
    simp only [combinedScore, hA, hT]
    norm_num
  have e12 : combinedScore (fun _ _ => (1/2 : ℚ)) (normalizeField "aa") (normalizeField "bb")
      ⟨"id1", "n1", ["a1"], "u1"⟩ = 1/2 := by
    simp only [combinedScore, hA, hT]
    norm_num
  constructor
  · exact (C2_threshold_boundary (fun _ _ => (3/4 : ℚ)) "aa" "bb"
      [⟨"id1", "n1", ["a1"], "u1"⟩]).1 ⟨⟨"id1", "n1", ["a1"], "u1"⟩, by simp, e34⟩
  · refine ((C2_threshold_boundary (fun _ _ => (1/2 : ℚ)) "aa" "bb"
      [⟨"id1", "n1", ["a1"], "u1"⟩]).2 ?_).1
    intro tr htr
    have := List.mem_singleton.mp htr
    subst this
    rw [e12]
    norm_num

/-! ## Helper lemmas: stats rows -/

theorem find?_append_right {α : Type} (p : α → Bool) :
    ∀ (l1 l2 : List α), (∀ r ∈ l1, p r = false) → (l1 ++ l2).find? p = l2.find? p := by
  intro l1
  induction l1 with
  | nil => intro l2 _; rfl
  | cons a l ih =>
    intro l2 h
    rw [List.cons_append, List.find?_cons_of_neg _ (by simp [h a (List.mem_cons_self a l)])]
    exact ih l2 (fun r hr => h r (List.mem_cons_of_mem a hr))

theorem getStats_date_station (db : DB) (today station : String) :
    (getStats db today station).date = today ∧ (getStats db today station).station = station := by
  unfold getStats
  cases h : db.stats.find? (fun r => r.date == today && r.station == station) with
  | none => simp [zeroStatsRow]
  | some r =>
    have hp := List.find?_some h
    simp only [Bool.and_eq_true, beq_iff_eq] at hp
    simp [hp.1, hp.2]

/-- How one `updateDailyStats` call transforms the `(today, station)` stats
row it targets. -/
theorem getStats_updateDailyStats (db : DB) (today station : String) (ty : StatType)
    (mp : Option ℚ) :
    getStats (updateDailyStats db today station ty mp) today station =
      (let base := getStats db today station
       let avgCandidate : Option ℚ :=
         if ty = .matched then
           match mp with
           | some x =>
             if x ≠ 0 then
               some ((base.avgMatchPercentage * (base.tracksMatched : ℚ) + x)
                       / ((base.tracksMatched : ℚ) + 1))
             else none
           | none => none
         else none
       ⟨today, station, base.tracksProcessed + 1,
        (if ty = .matched then base.tracksMatched + 1 else base.tracksMatched),
        (if ty = .matched then base.tracksAdded + 1 else base.tracksAdded),
        (if ty = .duplicate then base.tracksDuplicated + 1 else base.tracksDuplicated),
        (if ty = .unmatched then base.tracksUnmatched + 1 else base.tracksUnmatched),
        (match avgCandidate with
         | some v => if v = 0 then base.avgMatchPercentage else v
         | none => base.avgMatchPercentage)⟩) := by
  have hkept : ∀ r ∈ db.stats.filter (fun r => !(r.date == today)),
      (r.date == today && r.station == station) = false := by
    intro r hr
    have h2 := (List.mem_filter.mp hr).2
    simp only [Bool.not_eq_true'] at h2
    simp [h2]
  simp only [updateDailyStats, getStats]
  rw [find?_append_right _ _ _ hkept]
  simp [List.find?]

theorem addMatchedTrack_countId_le (today : String) (db : DB) (td : MatchDetails) (c : String)
    (h : countId db c ≤ 1) : countId (addMatchedTrack db today td).2 c ≤ 1 := by
  by_cases hany : db.matchedTracks.any (fun r => r.spotifyId == td.spotifyId) = true
  · simp only [addMatchedTrack, hany, if_true]
    unfold countId
    rw [updateDailyStats_matchedTracks]
    exact h
  · have hanyf : db.matchedTracks.any (fun r => r.spotifyId == td.spotifyId) = false :=
      eq_false_of_ne_true hany
    simp only [addMatchedTrack, hanyf, Bool.false_eq_true, if_false]
    unfold countId
    rw [updateDailyStats_matchedTracks]
    simp only [List.filter_append, List.length_append]
    by_cases hc : td.spotifyId = c
    · have hzero : (db.matchedTracks.filter (fun r => r.spotifyId == c)).length = 0 := by
        rw [List.length_eq_zero, List.filter_eq_nil_iff]
        intro r hr
        have hr2 := List.any_eq_false.mp hanyf r hr
        rw [← hc]
        simpa using hr2
      rw [hzero]
      simp [hc]
    · have hbeq : (td.spotifyId == c) = false := by simp [hc]
      simp only [List.filter_cons, List.filter_nil, hbeq, Bool.false_eq_true, if_false,
        List.length_nil]
      unfold countId at h
      omega

/-! ## Claim C1: duplicate catalog ids -/

/-- C1: inserting a matched track whose Spotify id already exists returns
null instead of an error, leaves the matched relation unchanged and records
a "duplicate" daily-stat outcome (processed and duplicated increment, the
matched counter does not move); consequently, over any sequence of insert
attempts, at most one row per catalog id ever persists. -/
theorem C1_at_most_once :
    ∀ (db : DB) (today : String) (td : MatchDetails),
      ((∃ r ∈ db.matchedTracks, r.spotifyId = td.spotifyId) →
        (addMatchedTrack db today td).1 = none ∧
        ((addMatchedTrack db today td).2).matchedTracks = db.matchedTracks ∧
        getStats (addMatchedTrack db today td).2 today td.station =
          { getStats db today td.station with
              tracksProcessed := (getStats db today td.station).tracksProcessed + 1,
              tracksDuplicated := (getStats db today td.station).tracksDuplicated + 1 }) ∧
      (∀ (c : String) (tds : List MatchDetails), countId db c ≤ 1 →
        countId (tds.foldl (fun d t => (addMatchedTrack d today t).2) db) c ≤ 1) := by
  intro db today td
  constructor
  · intro hex
    have hany : db.matchedTracks.any (fun r => r.spotifyId == td.spotifyId) = true := by
      rcases hex with ⟨r, hr, he⟩
      exact List.any_eq_true.mpr ⟨r, hr, by simp [he]⟩
    have hres : addMatchedTrack db today td =
        (none, updateDailyStats db today td.station .duplicate none) := by
      simp only [addMatchedTrack, hany, if_true]
    refine ⟨by rw [hres], ?_, ?_⟩
    · rw [hres]
      exact updateDailyStats_matchedTracks db today td.station .duplicate none
    · rw [hres]
      have hds := getStats_date_station db today td.station
      rw [getStats_updateDailyStats]
      simp [hds.1, hds.2]
  · intro c tds
    induction tds generalizing db with
    | nil => intro h; simpa using h
    | cons t ts ih =>
      intro h
      simp only [List.foldl_cons]
      exact ih _ (addMatchedTrack_countId_le today db t c h)

/-- Witness for C1: a second insertion of catalog id "sp1" returns null,
and repeated attempts keep the count of "sp1" rows at most one. -/
theorem C1_witness :
    (addMatchedTrack ⟨[⟨"main", "ra", "rt", "ro", "sp1", "sa", "st", "su", 80, "pl"⟩], [], []⟩
        "2025-10-11" ⟨"main", "ra", "rt", "ro", "sa", "st", "sp1", "su", 80, "pl"⟩).1 = none ∧
    countId ([⟨"main", "ra", "rt", "ro", "sa", "st", "sp1", "su", 80, "pl"⟩,
              ⟨"main", "ra", "rt", "ro", "sa", "st", "sp1", "su", 80, "pl"⟩].foldl
        (fun d t => (addMatchedTrack d "2025-10-11" t).2)
        ⟨[⟨"main", "ra", "rt", "ro", "sp1", "sa", "st", "su", 80, "pl"⟩], [], []⟩) "sp1" ≤ 1 := by
  constructor
  · exact ((C1_at_most_once ⟨[⟨"main", "ra", "rt", "ro", "sp1", "sa", "st", "su", 80, "pl"⟩],
      [], []⟩ "2025-10-11" ⟨"main", "ra", "rt", "ro", "sa", "st", "sp1", "su", 80, "pl"⟩).1
      ⟨⟨"main", "ra", "rt", "ro", "sp1", "sa", "st", "su", 80, "pl"⟩, by simp, rfl⟩).1
  · exact (C1_at_most_once ⟨[⟨"main", "ra", "rt", "ro", "sp1", "sa", "st", "su", 80, "pl"⟩],
      [], []⟩ "2025-10-11" ⟨"main", "ra", "rt", "ro", "sa", "st", "sp1", "su", 80, "pl"⟩).2
      "sp1" _ (by simp [countId])

theorem getStats_unmatchedTracks_set (db : DB) (l : List UnmatchedRow) (today station : String) :
    getStats { db with unmatchedTracks := l } today station = getStats db today station :=
  rfl

theorem addUnmatchedTrack_spec (db : DB) (today : String) (ud : UnmatchDetails) :
    ((addUnmatchedTrack db today ud).2).unmatchedTracks =
      db.unmatchedTracks ++
        [⟨ud.station, ud.metaArtist, ud.metaTitle, ud.metaOriginal,
          ud.spotifyMatch.map (fun m => m.artist), ud.spotifyMatch.map (fun m => m.title),
          ud.spotifyMatch.map (fun m => m.id), ud.percentage, ud.reason,
          ud.searchResultsCount⟩] ∧
    getStats ((addUnmatchedTrack db today ud).2) today ud.station =
      { getStats db today ud.station with
          tracksProcessed := (getStats db today ud.station).tracksProcessed + 1,
          tracksUnmatched := (getStats db today ud.station).tracksUnmatched + 1 } := by
  constructor
  · simp only [addUnmatchedTrack, updateDailyStats_unmatchedTracks]
  · have hds := getStats_date_station db today ud.station
    simp only [addUnmatchedTrack]
    rw [getStats_updateDailyStats]
    simp only [getStats_unmatchedTracks_set]
    simp [hds.1, hds.2]

/-! ## Claim C7: the non-music filter and unmatched storage -/

/-- C7 counterexample: an unmatched outcome whose artist matches the
"azuracast" keyword is dropped entirely by `logUnmatchedTrack` — the entry
is never stored and no stats update happens — refuting the claim that the
filter suppresses only the diagnostic logging and never the storage. -/
theorem C7_counterexample :
    logUnmatchedTrack (fun _ _ => 0) emptyDB "2025-10-11" "main"
        ⟨"AzuraCast", "Station Jingle", "AzuraCast - Station Jingle"⟩
        "No search results" [] none = emptyDB := by
  decide

/-- C7 amended: an unmatched outcome whose lower-cased artist or title
matches a skip keyword is dropped entirely (neither stored nor counted);
every other unmatched outcome is inserted unconditionally — insert-only,
with no uniqueness constraint, regardless of the current store contents —
and records an unmatched daily-stat outcome. -/
theorem C7_filter_suppresses_storage :
    ∀ (sim : String → String → ℚ) (db : DB) (today station : String)
      (metadata : ParsedTrack) (reason : String) (searchResults : List Track)
      (bml : Option ScoredMatch),
      (shouldSkip metadata.artist metadata.title = true →
        logUnmatchedTrack sim db today station metadata reason searchResults bml = db) ∧
      (shouldSkip metadata.artist metadata.title = false →
        ∃ row : UnmatchedRow,
          (logUnmatchedTrack sim db today station metadata reason searchResults
              bml).unmatchedTracks = db.unmatchedTracks ++ [row] ∧
          row.radioArtist = metadata.artist ∧
          row.radioTitle = metadata.title ∧
          row.reason = reason ∧
          getStats (logUnmatchedTrack sim db today station metadata reason searchResults bml)
              today station =
            { getStats db today station with
                tracksProcessed := (getStats db today station).tracksProcessed + 1,
                tracksUnmatched := (getStats db today station).tracksUnmatched + 1 }) := by
  intro sim db today station metadata reason searchResults bml
  constructor
  · intro h
    simp only [logUnmatchedTrack, h, if_true]
  · intro h
    simp only [logUnmatchedTrack, h, Bool.false_eq_true, if_false]
    exact ⟨_, (addUnmatchedTrack_spec db today _).1, rfl, rfl, rfl,
      (addUnmatchedTrack_spec db today _).2⟩

/-- Witness for C7 at a non-filtered unmatched outcome on the empty store. -/
theorem C7_witness :
    ∃ row : UnmatchedRow,
      (logUnmatchedTrack (fun _ _ => 0) emptyDB "2025-10-11" "main" ⟨"A", "B", "A - B"⟩
          "No search results" [] none).unmatchedTracks = emptyDB.unmatchedTracks ++ [row] ∧
      row.radioArtist = "A" ∧
      row.radioTitle = "B" ∧
      row.reason = "No search results" ∧
      getStats (logUnmatchedTrack (fun _ _ => 0) emptyDB "2025-10-11" "main" ⟨"A", "B", "A - B"⟩
          "No search results" [] none) "2025-10-11" "main" =
        { getStats emptyDB "2025-10-11" "main" with
            tracksProcessed := (getStats emptyDB "2025-10-11" "main").tracksProcessed + 1,
            tracksUnmatched := (getStats emptyDB "2025-10-11" "main").tracksUnmatched + 1 } :=
  (C7_filter_suppresses_storage (fun _ _ => 0) emptyDB "2025-10-11" "main" ⟨"A", "B", "A - B"⟩
      "No search results" [] none).2 (by decide)

theorem updateDailyStats_single (mt : List MatchedRow) (ut : List UnmatchedRow)
    (today station : String) (n k a d u : ℕ) (avg : ℚ) (ty : StatType) (mp : Option ℚ) :
    updateDailyStats ⟨mt, ut, [⟨today, station, n, k, a, d, u, avg⟩]⟩ today station ty mp =
      ⟨mt, ut, [⟨today, station, n + 1,
        (if ty = .matched then k + 1 else k),
        (if ty = .matched then a + 1 else a),
        (if ty = .duplicate then d + 1 else d),
        (if ty = .unmatched then u + 1 else u),
        (match (if ty = .matched then
                  match mp with
                  | some x =>
                    if x ≠ 0 then some ((avg * (k : ℚ) + x) / ((k : ℚ) + 1)) else none
                  | none => none
                else none : Option ℚ) with
         | some v => if v = 0 then avg else v
         | none => avg)⟩]⟩ := by
  simp only [updateDailyStats]
  simp [List.find?, List.filter]

theorem updateDailyStats_nil (mt : List MatchedRow) (ut : List UnmatchedRow)
    (today station : String) (ty : StatType) (mp : Option ℚ) :
    updateDailyStats ⟨mt, ut, []⟩ today station ty mp =
      updateDailyStats ⟨mt, ut, [zeroStatsRow today station]⟩ today station ty mp := by
  simp only [updateDailyStats]
  simp [List.find?, List.filter, zeroStatsRow]


theorem updateDailyStats_single_matched (mt : List MatchedRow) (ut : List UnmatchedRow)
    (today station : String) (n k a d u : ℕ) (avg p : ℚ) (hp : p ≠ 0)
    (hv : (avg * (k : ℚ) + p) / ((k : ℚ) + 1) ≠ 0) :
    updateDailyStats ⟨mt, ut, [⟨today, station, n, k, a, d, u, avg⟩]⟩ today station
        .matched (some p) =
      ⟨mt, ut, [⟨today, station, n + 1, k + 1, a + 1, d, u,
        (avg * (k : ℚ) + p) / ((k : ℚ) + 1)⟩]⟩ := by
  rw [updateDailyStats_single]
  simp [hp, hv]

theorem updateDailyStats_single_duplicate (mt : List MatchedRow) (ut : List UnmatchedRow)
    (today station : String) (n k a d u : ℕ) (avg : ℚ) :
    updateDailyStats ⟨mt, ut, [⟨today, station, n, k, a, d, u, avg⟩]⟩ today station
        .duplicate none =
      ⟨mt, ut, [⟨today, station, n + 1, k, a, d + 1, u, avg⟩]⟩ := by
  rw [updateDailyStats_single]
  simp

theorem updateDailyStats_single_unmatched (mt : List MatchedRow) (ut : List UnmatchedRow)
    (today station : String) (n k a d u : ℕ) (avg : ℚ) :
    updateDailyStats ⟨mt, ut, [⟨today, station, n, k, a, d, u, avg⟩]⟩ today station
        .unmatched none =
      ⟨mt, ut, [⟨today, station, n + 1, k, a, d, u + 1, avg⟩]⟩ := by
  rw [updateDailyStats_single]
  simp

theorem statsFold_aux (today station : String) :
    ∀ (events : List StatEvent) (mt : List MatchedRow) (ut : List UnmatchedRow)
      (n k d u : ℕ) (sum avg : ℚ),
      (∀ p ∈ matchedPercentages events, 0 < p) → 0 ≤ sum → (k = 0 → sum = 0) →
      avg = (if k = 0 then 0 else sum / (k : ℚ)) →
      events.foldl (applyStatEvent today station)
          ⟨mt, ut, [⟨today, station, n, k, k, d, u, avg⟩]⟩ =
        ⟨mt, ut, [⟨today, station,
          n + events.length,
          k + (matchedPercentages events).length,
          k + (matchedPercentages events).length,
          d + (events.filter isDuplicateEvent).length,
          u + (events.filter isUnmatchedEvent).length,
          (if k + (matchedPercentages events).length = 0 then 0
           else (sum + (matchedPercentages events).sum) /
             ((k + (matchedPercentages events).length : ℕ) : ℚ))⟩]⟩ := by
  intro events
  induction events with
  | nil =>
    intro mt ut n k d u sum avg hpos hsum hk0 havg
    simp [matchedPercentages, havg]
  | cons e es ih =>
    intro mt ut n k d u sum avg hpos hsum hk0 havg
    cases e with
    | matched p =>
      have hp : 0 < p := hpos p (by simp [matchedPercentages])
      have hnum : avg * (k : ℚ) + p = sum + p := by
        rw [havg]
        by_cases hk : k = 0
        · simp [hk, hk0 hk]
        · rw [if_neg hk, div_mul_cancel₀ sum (by exact_mod_cast hk)]
      have hpos2 : (0:ℚ) < (sum + p) / ((k : ℚ) + 1) :=
        div_pos (by linarith) (by positivity)
      have hv : (avg * (k : ℚ) + p) / ((k : ℚ) + 1) ≠ 0 := by
        rw [hnum]
        exact hpos2.ne'
      rw [List.foldl_cons]
      simp only [applyStatEvent]
      rw [updateDailyStats_single_matched mt ut today station n k k d u avg p
        (ne_of_gt hp) hv, hnum]
      rw [ih mt ut (n + 1) (k + 1) d u (sum + p) ((sum + p) / ((k : ℚ) + 1))
        (fun q hq => hpos q (by simp only [matchedPercentages, List.mem_cons]; exact Or.inr hq))
        (by linarith)
        (fun habs => absurd habs (Nat.succ_ne_zero k))
        (by rw [if_neg (Nat.succ_ne_zero k)]; push_cast; ring_nf)]
      simp only [matchedPercentages, List.length_cons, List.sum_cons, List.filter_cons,
        isDuplicateEvent, isUnmatchedEvent, Bool.false_eq_true, if_false]
      have e1 : n + 1 + es.length = n + (es.length + 1) := by omega
      have e2 : k + 1 + (matchedPercentages es).length =
          k + ((matchedPercentages es).length + 1) := by omega
      have e3 : sum + p + (matchedPercentages es).sum =
          sum + (p + (matchedPercentages es).sum) := by ring
      rw [e1, e2, e3]
    | duplicate =>
      rw [List.foldl_cons]
      simp only [applyStatEvent]
      rw [updateDailyStats_single_duplicate mt ut today station n k k d u avg]
      rw [ih mt ut (n + 1) k (d + 1) u sum avg
        (fun q hq => hpos q (by simpa [matchedPercentages] using hq)) hsum hk0 havg]
      simp only [matchedPercentages, List.length_cons, List.filter_cons,
        isDuplicateEvent, isUnmatchedEvent, Bool.false_eq_true, if_false, if_true]
      have e1 : n + 1 + es.length = n + (es.length + 1) := by omega
      have e2 : d + 1 + (es.filter isDuplicateEvent).length =
          d + ((es.filter isDuplicateEvent).length + 1) := by omega
      rw [e1, e2]
    | unmatched =>
      rw [List.foldl_cons]
      simp only [applyStatEvent]
      rw [updateDailyStats_single_unmatched mt ut today station n k k d u avg]
      rw [ih mt ut (n + 1) k d (u + 1) sum avg
        (fun q hq => hpos q (by simpa [matchedPercentages] using hq)) hsum hk0 havg]
      simp only [matchedPercentages, List.length_cons, List.filter_cons,
        isDuplicateEvent, isUnmatchedEvent, Bool.false_eq_true, if_false, if_true]
      have e1 : n + 1 + es.length = n + (es.length + 1) := by omega
      have e2 : u + 1 + (es.filter isUnmatchedEvent).length =
          u + ((es.filter isUnmatchedEvent).length + 1) := by omega
      rw [e1, e2]

/-! ## Claim C8: counters and the running average -/

/-- C8: starting from an empty store, after any sequence of outcomes for one
feed and day, the stats row holds: processed = number of events, matched =
added = number of matched events, duplicated / unmatched = the respective
event counts, and avg_match_percentage = the exact mean of the matched
percentages (maintained incrementally via new_avg = (old_avg*(n-1)+x)/n with
n the post-increment matched count); stated for the positive percentages the
pipeline produces: the first conjunct shows that an accepted match (combined
score at least 0.75) always rounds to a percentage of at least 75, so every
matched event of the pipeline satisfies the positivity hypothesis. -/
theorem C8_running_average :
    (∀ s : ℚ, 3/4 ≤ s → (75:ℚ) ≤ jsRound (s * 100)) ∧
    ∀ (today station : String) (events : List StatEvent),
      (∀ p ∈ matchedPercentages events, 0 < p) →
      getStats (events.foldl (applyStatEvent today station) emptyDB) today station =
        ⟨today, station, events.length,
         (matchedPercentages events).length,
         (matchedPercentages events).length,
         (events.filter isDuplicateEvent).length,
         (events.filter isUnmatchedEvent).length,
         (if (matchedPercentages events).length = 0 then 0
          else (matchedPercentages events).sum /
            ((matchedPercentages events).length : ℚ))⟩ := by
  constructor
  · intro s hs
    unfold jsRound
    have h2 : (75:ℤ) ≤ (s * 100 + 1/2).floor := Rat.le_floor.mpr (by push_cast; linarith)
    exact_mod_cast h2
  intro today station events hpos
  cases events with
  | nil =>
    simp [getStats, emptyDB, matchedPercentages, zeroStatsRow, List.find?]
  | cons e es =>
    have h0 : (e :: es).foldl (applyStatEvent today station) emptyDB =
        (e :: es).foldl (applyStatEvent today station)
          ⟨[], [], [zeroStatsRow today station]⟩ := by
      rw [List.foldl_cons, List.foldl_cons]
      cases e <;> simp only [applyStatEvent, emptyDB] <;> rw [updateDailyStats_nil]
    rw [h0]
    rw [show (⟨[], [], [zeroStatsRow today station]⟩ : DB) =
        ⟨[], [], [⟨today, station, 0, 0, 0, 0, 0, (0:ℚ)⟩]⟩ from rfl]
    rw [statsFold_aux today station (e :: es) [] [] 0 0 0 0 0 0 hpos le_rfl
      (fun _ => rfl) (by simp)]
    unfold getStats
    simp [List.find?]

/-- Witness for C8 at the event sequence
matched 80, duplicate, matched 90, unmatched. -/
theorem C8_witness :
    getStats ([StatEvent.matched 80, StatEvent.duplicate, StatEvent.matched 90,
        StatEvent.unmatched].foldl (applyStatEvent "2025-10-11" "main") emptyDB)
        "2025-10-11" "main" =
      ⟨"2025-10-11", "main",
       ([StatEvent.matched 80, StatEvent.duplicate, StatEvent.matched 90,
         StatEvent.unmatched] : List StatEvent).length,
       (matchedPercentages [StatEvent.matched 80, StatEvent.duplicate,
         StatEvent.matched 90, StatEvent.unmatched]).length,
       (matchedPercentages [StatEvent.matched 80, StatEvent.duplicate,
         StatEvent.matched 90, StatEvent.unmatched]).length,
       (([StatEvent.matched 80, StatEvent.duplicate, StatEvent.matched 90,
         StatEvent.unmatched] : List StatEvent).filter isDuplicateEvent).length,
       (([StatEvent.matched 80, StatEvent.duplicate, StatEvent.matched 90,
         StatEvent.unmatched] : List StatEvent).filter isUnmatchedEvent).length,
       (if (matchedPercentages [StatEvent.matched 80, StatEvent.duplicate,
             StatEvent.matched 90, StatEvent.unmatched]).length = 0 then 0
        else (matchedPercentages [StatEvent.matched 80, StatEvent.duplicate,
             StatEvent.matched 90, StatEvent.unmatched]).sum /
          ((matchedPercentages [StatEvent.matched 80, StatEvent.duplicate,
             StatEvent.matched 90, StatEvent.unmatched]).length : ℚ))⟩ :=
  C8_running_average.2 "2025-10-11" "main"
    [StatEvent.matched 80, StatEvent.duplicate, StatEvent.matched 90, StatEvent.unmatched]
    (by
      intro p hp
      simp only [matchedPercentages, List.mem_cons, List.not_mem_nil, or_false] at hp
      rcases hp with rfl | rfl <;> norm_num)

/-! ## Claim C9: stats rows are not independent across feeds -/

/-- C9: the schema's stray `UNIQUE` constraint on the `date` column alone
makes the `INSERT OR REPLACE` of `updateDailyStats` delete the other feed's
row for the same date: after recording an outcome for "main" the row
exists, but recording an outcome for "movies" on the same date removes it,
so two feeds' rows for one date cannot coexist — the code contradicts the
keying by (date, feed) that its own `UNIQUE(date, station)` constraint,
per-station queries and summary views intend. -/
theorem C9_date_unique_clobbers_other_feed :
    ((updateDailyStats emptyDB "2025-10-11" "main" .unmatched none).stats.filter
        (fun r => r.station == "main")).length = 1 ∧
    ((updateDailyStats (updateDailyStats emptyDB "2025-10-11" "main" .unmatched none)
        "2025-10-11" "movies" .unmatched none).stats.filter
        (fun r => r.station == "main")).length = 0 ∧
    ((updateDailyStats (updateDailyStats emptyDB "2025-10-11" "main" .unmatched none)
        "2025-10-11" "movies" .unmatched none).stats.filter
        (fun r => r.station == "movies")).length = 1 := by
  decide
